import Mathlib

/-!
# Verification of the telemetry correlation / export pipeline

Shallow embedding of the task-list observability demos (Flask + OpenTelemetry):
the structured JSON log formatter, the span recorder / batching-export handoff,
the logging helpers, the request handlers' telemetry-failure behavior, the
metric registry, and the CRUD task stores.  Definitions are translated from the
Python sources under `logging-app/`, `otel-demo-end-to-end/flask-signoz-app/`,
`traces-app/` and `metrics-app/`; where a claim is decided by library behavior
(OpenTelemetry SDK, Python `logging`, Flask) the relevant library semantics are
embedded explicitly and noted; where the spec alone defines a component the
definition is marked `Modelled from the spec`.
-/

namespace Spec2Proof

set_option autoImplicit false

/-! ## Values appearing in structured log records and span attributes -/

/-- A JSON-serializable value as used in the demo apps' structured log fields
and span attributes (strings, integers, booleans). -/
inductive JVal where
  | str (s : String)
  | nat (n : Nat)
  | bool (b : Bool)
  deriving DecidableEq, Repr

/-- Python `dict` lookup `d[k]` / `k in d`, on an insertion-ordered
association list with unique keys. -/
def dictGet : List (String × JVal) → String → Option JVal
  | [], _ => none
  | (k, v) :: t, key => if k = key then some v else dictGet t key

/-- Python `d[k] = v`: replace the value in place if `k` is present,
otherwise append the new binding (insertion order preserved). -/
def dictSet : List (String × JVal) → String → JVal → List (String × JVal)
  | [], key, v => [(key, v)]
  | (k, w) :: t, key, v =>
    if k = key then (k, v) :: t else (k, w) :: dictSet t key v

/-- Python `d.update(e)`: set each binding of `e` in `d`, in order. -/
def dictUpdate (d e : List (String × JVal)) : List (String × JVal) :=
  e.foldl (fun acc kv => dictSet acc kv.1 kv.2) d

/-! ## Fixed-width lowercase hex encoding (`format(n, '032x')`) -/

/-- One lowercase hexadecimal digit character for `d < 16`. -/
def hexDigitChar (d : Nat) : Char :=
  if d < 10 then Char.ofNat (48 + d) else Char.ofNat (87 + d)

/-- Little-endian lowercase hex digits of `n`, fuel-bounded (the fuel only
bounds the recursion; `n` iterations always suffice since each step divides
by 16). -/
def hexDigitsAux : Nat → Nat → List Char
  | 0, _ => []
  | fuel + 1, n =>
    if n = 0 then [] else hexDigitChar (n % 16) :: hexDigitsAux fuel (n / 16)

/-- Python `format(n, 'x')`: lowercase hex representation, `"0"` for zero. -/
def pyHex (n : Nat) : String :=
  if n = 0 then "0" else String.mk (hexDigitsAux n n).reverse

/-- Python `format(n, '0<width>x')`: lowercase hex, left-padded with `'0'`
to at least `width` characters (never truncated). -/
def pyFormatHexPad (n width : Nat) : String :=
  let s := pyHex n
  String.mk (List.replicate (width - s.length) '0') ++ s

/-! ## Log correlation: `JsonFormatter.format` (logging-app/app.py, lines 38-62) -/

/-- The result of `span.get_span_context()`: numeric trace/span identifiers and
the library's validity flag (`is_valid` is false for the invalid/no-op span
context returned when no span is current). -/
structure SpanContext where
  traceId : Nat
  spanId : Nat
  isValid : Bool
  deriving DecidableEq, Repr

/-- A Python `logging.LogRecord` as consumed by `JsonFormatter.format`:
the standard attributes plus the `extra_fields` dict attached by
`log_with_context` (`[]` models a record without `extra_fields`). -/
structure LogRecord where
  timestamp : String
  levelname : String
  name : String
  message : String
  module : String
  funcName : String
  lineno : Nat
  extra_fields : List (String × JVal)
  deriving DecidableEq, Repr

/-- The base dict built by `JsonFormatter.format` before trace correlation
(logging-app/app.py lines 43-51). -/
def baseFields (r : LogRecord) : List (String × JVal) :=
  [("timestamp", .str r.timestamp),
   ("level", .str r.levelname),
   ("logger", .str r.name),
   ("message", .str r.message),
   ("module", .str r.module),
   ("function", .str r.funcName),
   ("line", .nat r.lineno)]

/-- `JsonFormatter.format` (logging-app/app.py lines 38-62): build the base
dict, add `trace_id`/`span_id` when the current span context `is_valid`, then
`update` with the record's `extra_fields`.  The returned dict is what
`json.dumps` serializes, field for field. -/
def jsonFormatterFormat (ctx : SpanContext) (r : LogRecord) :
    List (String × JVal) :=
  let lr := baseFields r
  let lr := if ctx.isValid then
      dictUpdate lr
        [("trace_id", .str (pyFormatHexPad ctx.traceId 32)),
         ("span_id", .str (pyFormatHexPad ctx.spanId 16))]
    else lr
  dictUpdate lr r.extra_fields

/-! ## Span recorder (OTel SDK spans as used by the demo handlers) -/

/-- Span status: `UNSET` at creation, `OK` or `ERROR(message)` once set. -/
inductive SpanStatus where
  | unset
  | ok
  | error (msg : String)
  deriving DecidableEq, Repr

/-- A recorded span: name, attribute mapping, status, recorded-exception
events, and the ended (sealed) flag set by `end()`. -/
structure Span where
  name : String
  attrs : List (String × JVal)
  status : SpanStatus
  events : List String
  ended : Bool
  deriving DecidableEq, Repr

/-- `span.set_attribute(k, v)`: mutates an open span; a silent no-op on an
already-ended span (OTel SDK behavior, and spec §4.2: never throw after
close). -/
def Span.setAttribute (s : Span) (k : String) (v : JVal) : Span :=
  if s.ended then s else { s with attrs := dictSet s.attrs k v }

/-- `span.set_status(st)`: silent no-op on an ended span (spec §4.2); once the
status is `OK` it is frozen (OTel SDK: further `set_status` calls are
ignored). -/
def Span.setStatus (s : Span) (st : SpanStatus) : Span :=
  if s.ended then s
  else if s.status = .ok then s
  else { s with status := st }

/-- `span.record_exception(e)`: appends an exception event to an open span; a
silent no-op on an ended span (spec §4.2). -/
def Span.recordException (s : Span) (e : String) : Span :=
  if s.ended then s else { s with events := s.events ++ [e] }

/-- `tracer.start_span(name)`: fresh open span, empty attributes, status
`UNSET`. -/
def startSpan (name : String) : Span :=
  ⟨name, [], .unset, [], false⟩

/-- `span.end()`: seals the span. -/
def endSpan (s : Span) : Span :=
  { s with ended := true }

/-- Operations a `with`-block body performs on its span. -/
inductive SpanOp where
  | setAttr (k : String) (v : JVal)
  | setStatus (st : SpanStatus)
  | recordExc (e : String)
  deriving DecidableEq, Repr

/-- Apply one body operation to the span. -/
def applyOp (s : Span) : SpanOp → Span
  | .setAttr k v => s.setAttribute k v
  | .setStatus st => s.setStatus st
  | .recordExc e => s.recordException e

/-- Run the body's span operations in order. -/
def runOps (s : Span) (ops : List SpanOp) : Span :=
  ops.foldl applyOp s

/-- `with tracer.start_as_current_span(name) as span: <body>` over the export
queue `q`, embedding OTel's `use_span` context manager: `ops` are the span
operations the body executed before exiting, `exc` is `some m` when the body
exited by raising exception `m` (OTel then records the exception on the span
and sets status `ERROR`), the span is ended and handed to the batch span
processor (appended to `q`) on every exit path.  Returns the sealed span and
the new queue. -/
def scopedSpan (name : String) (ops : List SpanOp) (exc : Option String)
    (q : List Span) : Span × List Span :=
  let s := runOps (startSpan name) ops
  let s := match exc with
    | none => s
    | some m => (s.recordException m).setStatus (.error m)
  let s := endSpan s
  (s, q ++ [s])

/-- The span operations of a successful `create_task` body
(logging-app/app.py lines 232-255): three `set_attribute` calls, then
`set_status(OK)` as the last statement of the `with` block. -/
def createTaskBody (id : Nat) (txt : String) : List SpanOp :=
  [.setAttr "task.id" (.nat id), .setAttr "task.text" (.str txt),
   .setAttr "operation" (.str "create"), .setStatus .ok]

/-- The prefix of the `create_task` body executed when a statement after the
attribute calls (store insert, counter add, or log call) raises: the final
`set_status(OK)` never runs. -/
def createTaskAttrs (id : Nat) (txt : String) : List SpanOp :=
  [.setAttr "task.id" (.nat id), .setAttr "task.text" (.str txt),
   .setAttr "operation" (.str "create")]

/-! ## Context carrier: current-span state across `with` blocks -/

/-- State of one logical operation in the context-carrier model: the
contextvar slot holding the current span (by span id), the span-id source,
and the queue of ended-and-exported span ids. -/
structure CtxState where
  current : Option Nat
  nextId : Nat
  exported : List Nat
  deriving DecidableEq, Repr

/-- A request-handler body in the context-carrier model: primitive steps,
sequencing, raising, and the `with tracer.start_as_current_span(...)`
block (which may nest arbitrarily). -/
inductive Prog where
  | nop
  | raise (msg : String)
  | seq (p q : Prog)
  | withSpan (name : String) (body : Prog)
  deriving DecidableEq, Repr

/-- Execute a program, embedding Python's `with` statement over OTel's
`use_span`: entering `withSpan` saves the current contextvar value (the
`attach` token), activates a fresh span, runs the body, and in the `finally`
ends+enqueues the span and `detach`es — restoring the saved value on normal
and exceptional exit alike.  A raise propagates outward, skipping the rest of
any enclosing `seq`. -/
def execProg : Prog → CtxState → CtxState × Option String
  | .nop, st => (st, none)
  | .raise m, st => (st, some m)
  | .seq p q, st =>
    match execProg p st with
    | (st', none) => execProg q st'
    | (st', some m) => (st', some m)
  | .withSpan _ body, st =>
    let r := execProg body
      { st with current := some st.nextId, nextId := st.nextId + 1 }
    ({ current := st.current, nextId := r.1.nextId,
       exported := r.1.exported ++ [st.nextId] }, r.2)

/-! ## Log Correlator call path (logging-app and flask-signoz-app helpers) -/

/-- The level-named methods `getattr(logger, level)` resolves on a Python
`logging.Logger`; any other `level` string makes `getattr` raise
`AttributeError`. -/
def loggerMethods : List String :=
  ["debug", "info", "warning", "error", "exception", "critical"]

/-- Runtime conditions of one log delivery: whether the record's fields
serialize in `JsonFormatter.format` (`json.dumps`) and whether the sink
write succeeds. -/
structure SinkConditions where
  serializeOk : Bool
  writeOk : Bool
  deriving DecidableEq, Repr

/-- `Handler.emit`: formats the record and writes it to the stream; any
exception from either step is routed to `Handler.handleError`, which prints a
traceback and does not re-raise — the failed record is silently dropped. -/
def handlerEmit (c : SinkConditions) : Except String Unit :=
  match (if c.serializeOk then Except.ok ()
      else Except.error "TypeError: not JSON serializable").bind
      (fun _ => if c.writeOk then Except.ok ()
      else Except.error "OSError: stream write failed") with
  | .ok _ => .ok ()
  | .error _ => .ok ()

/-- `getattr(logger, level)(message, extra=...)`: raises `AttributeError` when
`level` does not name a logger method; otherwise delegates to the handler,
which never lets a format or sink failure escape. -/
def loggerCall (level : String) (c : SinkConditions) : Except String Unit :=
  if level ∈ loggerMethods then handlerEmit c
  else .error ("AttributeError: " ++ level)

/-- `log_with_context(level, message, **kwargs)` (logging-app/app.py lines
146-149): builds `extra = {'extra_fields': kwargs}` and calls
`getattr(logger, level)` — with no exception handling of its own. -/
def log_with_context (level msg : String) (fields : List (String × JVal))
    (c : SinkConditions) : Except String Unit :=
  loggerCall level c

/-- `log_with_trace_context(level, message, **kwargs)`
(flask-signoz-app/app.py lines 162-180): inside `try`, reads the current span
context (`ctxReadOk = false` models that read raising) and calls
`getattr(logger, level)`; the bare `except` falls back to a plain
`getattr(logger, level)` call — which raises again for an invalid level.
With OTel disabled only the plain call runs. -/
def log_with_trace_context (level msg : String) (fields : List (String × JVal))
    (otelEnabled ctxReadOk : Bool) (c : SinkConditions) : Except String Unit :=
  if !otelEnabled then loggerCall level c
  else
    match (if ctxReadOk then loggerCall level c
        else Except.error "trace context read failed") with
    | .ok u => .ok u
    | .error _ => loggerCall level c

/-! ## Task store and request handlers (C4, C9) -/

/-- A stored task object `{"id":…, "task":…, "done":…}`. -/
structure Task where
  id : Nat
  task : String
  done : Bool
  deriving DecidableEq, Repr

/-- The in-memory `tasks` dict, keyed by task id, insertion-ordered. -/
abbrev TaskStore := List (Nat × Task)

/-- `tasks[id]` lookup. -/
def storeGet : TaskStore → Nat → Option Task
  | [], _ => none
  | (k, v) :: t, key => if k = key then some v else storeGet t key

/-- `tasks[id] = v`: replace in place if the key exists, else append. -/
def storeSet : TaskStore → Nat → Task → TaskStore
  | [], key, v => [(key, v)]
  | (k, w) :: t, key, v =>
    if k = key then (k, v) :: t else (k, w) :: storeSet t key v

/-- `create_task` store logic (logging-app/app.py lines 233-244 and
flask-signoz-app/app.py lines 277-284): `task_id = len(tasks) + 1`, then
`tasks[task_id] = {...}`; returns the assigned id and the new store. -/
def create_task_store (tasks : TaskStore) (txt : String) : Nat × TaskStore :=
  let task_id := tasks.length + 1
  (task_id, storeSet tasks task_id ⟨task_id, txt, false⟩)

/-- `del tasks[task_id]` (the DELETE handler's store effect). -/
def delete_task_store (tasks : TaskStore) (task_id : Nat) : TaskStore :=
  tasks.filter (fun kv => kv.1 ≠ task_id)

/-- An HTTP response: status code and body tag. -/
structure HttpResp where
  status : Nat
  body : String
  deriving DecidableEq, Repr

/-- One telemetry call (span attribute/status update, counter add, histogram
record, or log write): `ok = false` models the call raising. -/
def telCall (ok : Bool) : Except String Unit :=
  if ok then .ok () else .error "TelemetryError"

/-- `create_task` (logging-app/app.py lines 214-260): every telemetry call —
the warning log + `error_counter.add` on the 400 path, the span attribute
updates, `task_counter.add`, `task_operations.add`, the info log and
`set_status` on the create path — runs unguarded, so a raising telemetry call
aborts the handler (the store insert made before it persists). -/
def LoggingApp.create_task (hasTask : Bool) (txt : String) (telOk : Bool)
    (tasks : TaskStore) : Except String HttpResp × TaskStore :=
  if !hasTask then
    match telCall telOk with
    | .error m => (.error m, tasks)
    | .ok _ => (.ok ⟨400, "Missing 'task' field"⟩, tasks)
  else
    match telCall telOk with
    | .error m => (.error m, tasks)
    | .ok _ =>
      let r := create_task_store tasks txt
      match telCall telOk with
      | .error m => (.error m, r.2)
      | .ok _ => (.ok ⟨201, "task " ++ toString r.1⟩, r.2)

/-- Flask's `@app.errorhandler(Exception)` dispatch (logging-app/app.py lines
422-434): an exception escaping the handler body yields a 500 response. -/
def flaskWrap (r : Except String HttpResp × TaskStore) : HttpResp × TaskStore :=
  match r with
  | (.ok resp, s) => (resp, s)
  | (.error m, s) => (⟨500, m⟩, s)

/-- POST /tasks in the logging-app variant, as served by Flask. -/
def LoggingApp.post_tasks (hasTask : Bool) (txt : String) (telOk : Bool)
    (tasks : TaskStore) : HttpResp × TaskStore :=
  flaskWrap (LoggingApp.create_task hasTask txt telOk tasks)

/-- `except: pass` around a telemetry block (flask-signoz-app). -/
def tryExceptPass (r : Except String Unit) : Unit :=
  match r with
  | .ok _ => ()
  | .error _ => ()

/-- `create_task` (flask-signoz-app/app.py lines 255-303): the span, counter
and histogram calls are wrapped in `try: … except: pass`, and the log helper
(called with the valid level `'info'`/`'warning'`) swallows its own failures,
so the response is computed from the store logic alone. -/
def Signoz.create_task (hasTask : Bool) (txt : String) (telOk : Bool)
    (tasks : TaskStore) : HttpResp × TaskStore :=
  if !hasTask then
    let _ := tryExceptPass (telCall telOk)
    (⟨400, "Missing 'task' field"⟩, tasks)
  else
    let r := create_task_store tasks txt
    let _ := tryExceptPass (telCall telOk)
    (⟨201, "task " ++ toString r.1⟩, r.2)

/-! ## Metric Registry (modelled from the spec) -/

/-- Metric kinds of spec §3/§4.3. -/
inductive MetricKind where
  | counter
  | histogram
  | gauge
  deriving DecidableEq, Repr

/-- A label set: label name → label value. -/
abbrev Labels := List (String × String)

/-- Lookup in the instrument table. -/
def instrLookup : List (String × MetricKind) → String → Option MetricKind
  | [], _ => none
  | (k, v) :: t, key => if k = key then some v else instrLookup t key

/-- Read an accumulated value (0 when never updated). -/
def accGet : List ((String × Labels) × Nat) → String × Labels → Nat
  | [], _ => 0
  | (k, v) :: t, key => if k = key then v else accGet t key

/-- Accumulate a delta on one (instrument, label-set) cell: replace in place,
or create the cell. -/
def accAdd : List ((String × Labels) × Nat) → String × Labels → Nat →
    List ((String × Labels) × Nat)
  | [], key, d => [(key, d)]
  | (k, v) :: t, key, d =>
    if k = key then (k, v + d) :: t else (k, v) :: accAdd t key d

/-- Modelled from the spec: the Metric Registry of §4.3 (its implementation
lives in the OpenTelemetry SDK, outside the repository sources; the sources
only declare instruments — e.g. `meter.create_counter("tasks_total", …)` in
logging-app/app.py lines 116-119 — and call `add`): a process-wide table of
named instruments and one accumulated value per (instrument, label-set). -/
structure Registry where
  instruments : List (String × MetricKind)
  values : List ((String × Labels) × Nat)
  deriving DecidableEq, Repr

/-- Modelled from the spec (§4.3): registration is idempotent by name — an
existing name of the same kind yields the existing handle (the name) and an
unchanged registry; an existing name of a different kind is a configuration
error; a fresh name is registered.  A returned handle is the instrument
name. -/
def Registry.registerInstr (r : Registry) (name : String) (k : MetricKind) :
    Except String (String × Registry) :=
  match instrLookup r.instruments name with
  | some k' =>
    if k' = k then .ok (name, r) else .error "metric kind mismatch"
  | none =>
    .ok (name, { r with instruments := r.instruments ++ [(name, k)] })

/-- `counter(name, description)` of §4.3. -/
def Registry.counter (r : Registry) (name : String) :
    Except String (String × Registry) :=
  r.registerInstr name .counter

/-- `histogram(name, description)` of §4.3. -/
def Registry.histogram (r : Registry) (name : String) :
    Except String (String × Registry) :=
  r.registerInstr name .histogram

/-- Modelled from the spec (§4.3, §5): `handle.add(delta, labels)` is a single
atomic accumulation on the handle's (instrument, label-set) cell. -/
def Registry.add (r : Registry) (h : String) (delta : Nat) (labels : Labels) :
    Registry :=
  { r with values := accAdd r.values (h, labels) delta }

/-- Current value of one (instrument, label-set) cell. -/
def Registry.value (r : Registry) (h : String) (labels : Labels) : Nat :=
  accGet r.values (h, labels)

/-- Run a schedule of `add` invocations (one per concurrent operation; under
§5's atomicity an interleaved execution of `k` concurrent single-`add`
operations is exactly some order of the `k` atomic adds). -/
def runAdds (h : String) (labels : Labels) : List Nat → Registry → Registry
  | [], r => r
  | d :: ds, r => runAdds h labels ds (r.add h d labels)

/-! ## SQLite variant: PUT /tasks/<id> (metrics-app/app.py) -/

/-- A parsed JSON request body for `PUT /tasks/<id>`: optional `task` and
`done` members.  `request.json` is `none` for a body that yields no JSON
object (the JSON literal `null`). -/
structure UpdateBody where
  task : Option String
  done : Option Bool
  deriving DecidableEq, Repr

/-- One `todos` row: id, task text, done flag. -/
abbrev TodoDb := List (Nat × String × Bool)

/-- `UPDATE todos SET task=? WHERE id=?`. -/
def sqlSetTask (db : TodoDb) (tid : Nat) (txt : String) : TodoDb :=
  db.map (fun row => if row.1 = tid then (row.1, txt, row.2.2) else row)

/-- `UPDATE todos SET done=? WHERE id=?`. -/
def sqlSetDone (db : TodoDb) (tid : Nat) (d : Bool) : TodoDb :=
  db.map (fun row => if row.1 = tid then (row.1, row.2.1, d) else row)

/-- A Python exception as seen by the Flask error handler: `code` is present
exactly for `HTTPException`s (`getattr(e, "code", 500)`). -/
structure PyExc where
  excName : String
  code : Option Nat
  deriving DecidableEq, Repr

/-- `update_task` (metrics-app/app.py lines 74-85): `data = request.json`; the
membership test `"task" in data` on `data = None` raises `TypeError` before
any database statement runs; otherwise the requested column updates are
applied and 200 returned. -/
def MetricsApp.update_task (data : Option UpdateBody) (tid : Nat)
    (db : TodoDb) : Except PyExc (HttpResp × TodoDb) :=
  match data with
  | none =>
    .error ⟨"TypeError: argument of type 'NoneType' is not iterable", none⟩
  | some d =>
    let db1 := match d.task with
      | some t => sqlSetTask db tid t
      | none => db
    let db2 := match d.done with
      | some b => sqlSetDone db1 tid b
      | none => db1
    .ok (⟨200, "Task updated"⟩, db2)

/-- `handle_exception` (metrics-app/app.py lines 46-51): returns
`jsonify(error=str(e)), getattr(e, "code", 500)` — 500 for any non-HTTP
exception. -/
def MetricsApp.handle_exception (e : PyExc) : HttpResp :=
  ⟨e.code.getD 500, "error: " ++ e.excName⟩

/-- `PUT /tasks/<id>` in the SQLite metrics variant as served by Flask: an
exception escaping `update_task` is routed to the generic
`@app.errorhandler(Exception)`. -/
def MetricsApp.put_tasks (data : Option UpdateBody) (tid : Nat)
    (db : TodoDb) : HttpResp × TodoDb :=
  match MetricsApp.update_task data tid db with
  | .ok r => r
  | .error e => (MetricsApp.handle_exception e, db)

/-! ## Lemmas: dict operations -/

theorem dictGet_dictSet_eq (d : List (String × JVal)) (k : String) (v : JVal) :
    dictGet (dictSet d k v) k = some v := by
  induction d with
  | nil => simp [dictSet, dictGet]
  | cons hd t ih =>
    by_cases h : hd.1 = k <;> simp [dictSet, dictGet, h, ih]

theorem dictGet_dictSet_ne (d : List (String × JVal)) (k key : String) (v : JVal)
    (h : k ≠ key) : dictGet (dictSet d k v) key = dictGet d key := by
  induction d with
  | nil => simp [dictSet, dictGet, h]
  | cons hd t ih =>
    by_cases h2 : hd.1 = k
    · simp [dictSet, dictGet, h2, h]
    · by_cases h3 : hd.1 = key <;> simp [dictSet, dictGet, h2, h3, ih, Ne.symm h]

theorem dictGet_dictUpdate_not_mem (d e : List (String × JVal)) (key : String)
    (h : ∀ kv ∈ e, kv.1 ≠ key) : dictGet (dictUpdate d e) key = dictGet d key := by
  induction e generalizing d with
  | nil => rfl
  | cons hd t ih =>
    have h1 : hd.1 ≠ key := h hd (by simp)
    have h2 : ∀ kv ∈ t, kv.1 ≠ key := fun kv hkv => h kv (by simp [hkv])
    simp only [dictUpdate, List.foldl_cons]
    rw [show (List.foldl (fun acc kv => dictSet acc kv.1 kv.2) (dictSet d hd.1 hd.2) t)
        = dictUpdate (dictSet d hd.1 hd.2) t from rfl]
    rw [ih _ h2, dictGet_dictSet_ne _ _ _ _ h1]

theorem dictGet_baseFields_trace_id (r : LogRecord) :
    dictGet (baseFields r) "trace_id" = none := by
  simp [baseFields, dictGet]

theorem dictGet_baseFields_span_id (r : LogRecord) :
    dictGet (baseFields r) "span_id" = none := by
  simp [baseFields, dictGet]

/-! ## Lemmas: hex encoding length -/

theorem hexDigitsAux_length_le (fuel : Nat) :
    ∀ n k : Nat, n < 16 ^ k → (hexDigitsAux fuel n).length ≤ k := by
  induction fuel with
  | zero => intro n k _; simp [hexDigitsAux]
  | succ fuel ih =>
    intro n k hn
    by_cases h0 : n = 0
    · simp [hexDigitsAux, h0]
    · match k with
      | 0 => omega
      | k + 1 =>
        have hdiv : n / 16 < 16 ^ k := by
          rw [Nat.div_lt_iff_lt_mul (by norm_num : (0:Nat) < 16)]
          calc n < 16 ^ (k + 1) := hn
            _ = 16 ^ k * 16 := by ring
        simp only [hexDigitsAux, h0, if_false, List.length_cons]
        exact Nat.succ_le_succ (ih (n / 16) k hdiv)

theorem pyHex_length_le (n k : Nat) (hn : n < 16 ^ k) (hk : 1 ≤ k) :
    (pyHex n).length ≤ k := by
  by_cases h0 : n = 0
  · have h1 : "0".length = 1 := rfl
    simp only [pyHex, h0, if_true, if_pos]
    omega
  · simp only [pyHex, h0, if_false]
    rw [String.length_mk, List.length_reverse]
    exact hexDigitsAux_length_le n n k hn

theorem pyFormatHexPad_length (n k : Nat) (hn : n < 16 ^ k) (hk : 1 ≤ k) :
    (pyFormatHexPad n k).length = k := by
  have hle := pyHex_length_le n k hn hk
  simp only [pyFormatHexPad, String.length_append, String.length_mk,
    List.length_replicate]
  omega

/-! ## Lemmas: metric registry -/

theorem accGet_accAdd_eq (l : List ((String × Labels) × Nat))
    (key : String × Labels) (d : Nat) :
    accGet (accAdd l key d) key = accGet l key + d := by
  induction l with
  | nil => simp [accAdd, accGet]
  | cons hd t ih =>
    by_cases h : hd.1 = key <;> simp [accAdd, accGet, h, ih]

theorem instrLookup_append_self (l : List (String × MetricKind))
    (name : String) (k : MetricKind) (h : instrLookup l name = none) :
    instrLookup (l ++ [(name, k)]) name = some k := by
  induction l with
  | nil => simp [instrLookup]
  | cons hd t ih =>
    by_cases h2 : hd.1 = name
    · simp [instrLookup, h2] at h
    · simp only [instrLookup, h2, if_false] at h
      simp [instrLookup, h2, ih h]

theorem value_runAdds (h : String) (labels : Labels) (sched : List Nat) :
    ∀ r : Registry, (runAdds h labels sched r).value h labels
      = r.value h labels + sched.sum := by
  induction sched with
  | nil => intro r; simp [runAdds]
  | cons d ds ih =>
    intro r
    simp only [runAdds, ih, List.sum_cons]
    show accGet (accAdd r.values (h, labels) d) (h, labels) + ds.sum = _
    rw [accGet_accAdd_eq]
    show r.value h labels + d + ds.sum = _
    ring

/-! ## Claim C1: trace/span correlation fields in the serialized log record -/

/-- C1 (counterexample): the claim as stated fails — `format` merges
`record.extra_fields` *after* the correlation fields, so a log call whose
structured fields themselves bind `trace_id` overwrites the hex encoding of the
current span's trace-id: with span context `(T,S) = (1,2)` valid and
`extra_fields = [("trace_id","deadbeef")]`, the serialized record's `trace_id`
is `"deadbeef"`, not the 32-character hex encoding of `1`. -/
theorem C1_counterexample :
    dictGet (jsonFormatterFormat ⟨1, 2, true⟩
        ⟨"2024", "INFO", "flask-todo", "Task created", "app", "create_task", 250,
         [("trace_id", .str "deadbeef")]⟩) "trace_id"
      ≠ some (.str (pyFormatHexPad 1 32)) := by decide

/-- C1 (amended): provided the call's structured field mapping binds neither
`trace_id` nor `span_id`, a record formatted while a span with trace-id `T` and
span-id `S` is current (valid span context) contains exactly the fields
`trace_id` = 32-character lowercase hex encoding of `T` and `span_id` =
16-character lowercase hex encoding of `S`; with no valid current span neither
field is present. -/
theorem C1_log_trace_correlation (ctx : SpanContext) (r : LogRecord)
    (hT : ctx.traceId < 16 ^ 32) (hS : ctx.spanId < 16 ^ 16)
    (hnoT : ∀ kv ∈ r.extra_fields, kv.1 ≠ "trace_id")
    (hnoS : ∀ kv ∈ r.extra_fields, kv.1 ≠ "span_id") :
    (ctx.isValid = true →
      dictGet (jsonFormatterFormat ctx r) "trace_id"
          = some (.str (pyFormatHexPad ctx.traceId 32))
        ∧ (pyFormatHexPad ctx.traceId 32).length = 32
        ∧ dictGet (jsonFormatterFormat ctx r) "span_id"
          = some (.str (pyFormatHexPad ctx.spanId 16))
        ∧ (pyFormatHexPad ctx.spanId 16).length = 16)
    ∧ (ctx.isValid = false →
      dictGet (jsonFormatterFormat ctx r) "trace_id" = none
        ∧ dictGet (jsonFormatterFormat ctx r) "span_id" = none) := by
  constructor
  · intro hv
    simp only [jsonFormatterFormat, hv, if_true]
    rw [dictGet_dictUpdate_not_mem _ _ _ hnoT]
    rw [dictGet_dictUpdate_not_mem _ _ _ hnoS]
    refine ⟨?_, pyFormatHexPad_length _ _ hT (by norm_num), ?_,
      pyFormatHexPad_length _ _ hS (by norm_num)⟩
    · show dictGet (dictUpdate (baseFields r) _) "trace_id" = _
      simp only [dictUpdate, List.foldl_cons, List.foldl_nil]
      rw [dictGet_dictSet_ne _ _ _ _ (by decide), dictGet_dictSet_eq]
    · show dictGet (dictUpdate (baseFields r) _) "span_id" = _
      simp only [dictUpdate, List.foldl_cons, List.foldl_nil]
      rw [dictGet_dictSet_eq]
  · intro hv
    simp only [jsonFormatterFormat, hv, if_false, Bool.false_eq_true]
    rw [dictGet_dictUpdate_not_mem _ _ _ hnoT,
      dictGet_dictUpdate_not_mem _ _ _ hnoS]
    exact ⟨dictGet_baseFields_trace_id r, dictGet_baseFields_span_id r⟩

/-- C1 witness: the amended theorem applied at a concrete valid span context
`(T,S) = (1,2)` and a record carrying one unrelated structured field. -/
theorem C1_witness :
    dictGet (jsonFormatterFormat ⟨1, 2, true⟩
        ⟨"2024", "INFO", "flask-todo", "Task created", "app", "create_task", 250,
         [("endpoint", .str "/tasks")]⟩) "trace_id"
      = some (.str (pyFormatHexPad 1 32)) :=
  ((C1_log_trace_correlation ⟨1, 2, true⟩
      ⟨"2024", "INFO", "flask-todo", "Task created", "app", "create_task", 250,
       [("endpoint", .str "/tasks")]⟩
      (by norm_num) (by norm_num) (by decide) (by decide)).1 rfl).1

/-! ## Claim C2: create_task span sealed, attributed, and enqueued once -/

/-- C2 (counterexample): the claim's "status is OK regardless of how the body
exits" fails — when the body raises after setting the attributes (so the final
`set_status(OK)` never runs), the context manager records the exception and
sets status `ERROR` before ending the span: at `task.id = 7` with exception
`"boom"` the enqueued span's status is not `OK`. -/
theorem C2_counterexample :
    (scopedSpan "create_task_operation" (createTaskAttrs 7 "demo")
        (some "boom") []).1.status ≠ SpanStatus.ok := by decide

/-- C2 (amended): the `create_task_operation` block enqueues exactly one sealed
span (appended to the exporter queue) whose attributes contain `task.id` equal
to the new task's id, regardless of how the body exits; its status is `OK` when
the body completes normally (as in a successful POST /tasks), and `ERROR` when
the body exits by raising. -/
theorem C2_create_task_span_export (id : Nat) (txt m : String) (q : List Span) :
    (let r := scopedSpan "create_task_operation" (createTaskBody id txt) none q
     r.2 = q ++ [r.1] ∧ r.1.ended = true
       ∧ dictGet r.1.attrs "task.id" = some (.nat id)
       ∧ r.1.status = .ok)
    ∧ (let r := scopedSpan "create_task_operation" (createTaskAttrs id txt)
          (some m) q
       r.2 = q ++ [r.1] ∧ r.1.ended = true
         ∧ dictGet r.1.attrs "task.id" = some (.nat id)
         ∧ r.1.status = .error m) := by
  simp [scopedSpan, createTaskBody, createTaskAttrs, runOps, applyOp,
    Span.setAttribute, Span.setStatus, Span.recordException, startSpan,
    endSpan, dictSet, dictGet]

/-! ## Claim C8: mutating a closed span is a silent no-op -/

/-- C8: `setAttribute`, `setStatus`, and `recordException` on an
already-ended span leave the sealed span entirely unchanged (attributes,
status, and recorded-exception list included); all three are total functions,
so none can raise.  Modelled from the spec (§4.2): the after-close no-op
behavior of the three span mutators; no repository source implements the span
type itself. -/
theorem C8_closed_span_mutation_noop (s : Span) (h : s.ended = true)
    (k : String) (v : JVal) (st : SpanStatus) (e : String) :
    s.setAttribute k v = s ∧ s.setStatus st = s ∧ s.recordException e = s := by
  simp [Span.setAttribute, Span.setStatus, Span.recordException, h]

/-- C8 witness: the theorem applied to a concrete sealed span. -/
theorem C8_witness :
    (endSpan (startSpan "create_task_operation")).setAttribute "task.id"
        (.nat 7) = endSpan (startSpan "create_task_operation")
      ∧ (endSpan (startSpan "create_task_operation")).setStatus .ok
        = endSpan (startSpan "create_task_operation")
      ∧ (endSpan (startSpan "create_task_operation")).recordException "boom"
        = endSpan (startSpan "create_task_operation") :=
  C8_closed_span_mutation_noop (endSpan (startSpan "create_task_operation"))
    rfl "task.id" (.nat 7) .ok "boom"

/-! ## Claim C5: the with-span block restores the previous current span -/

/-- C5: for every body (including nested spans and bodies that raise) and
every starting state, after `with tracer.start_as_current_span(name)` finishes
the current span is exactly the one that was current before the block was
entered — the `finally`-detach of the saved context token restores it on
normal and exceptional exit alike. -/
theorem C5_withSpan_restores_current (name : String) (body : Prog)
    (st : CtxState) :
    (execProg (.withSpan name body) st).1.current = st.current := rfl

/-! ## Claim C3: the log operation never raises — except for invalid levels -/

/-- C3 (counterexample): the claim fails for a `level` argument that does not
name a logger method — `log_with_context` has no exception handling, and
`getattr(logger, level)` raises `AttributeError` before any record is built
(`log_with_trace_context`'s bare-`except` fallback re-raises the same way):
`log_with_context('bogus', …)` propagates `AttributeError` to its caller even
with a perfectly healthy sink. -/
theorem C3_counterexample :
    log_with_context "bogus" "hello" [] ⟨true, true⟩
        = .error "AttributeError: bogus"
      ∧ log_with_trace_context "bogus" "hello" [] true true ⟨true, true⟩
        = .error "AttributeError: bogus" := ⟨rfl, rfl⟩

/-- C3 (amended): for every level that names a logger method (as all call
sites use: 'debug'/'info'/'warning'/'error'), every message and structured
field mapping, and every combination of serialization failure, sink-write
failure, disabled telemetry, and failing span-context read, both
`log_with_context` and `log_with_trace_context` return normally — the failed
write is silently dropped by `Handler.handleError` (and by the bare `except`
in `log_with_trace_context`). -/
theorem C3_log_never_raises (level msg : String)
    (fields : List (String × JVal)) (c : SinkConditions)
    (otelEnabled ctxReadOk : Bool) (h : level ∈ loggerMethods) :
    log_with_context level msg fields c = .ok ()
      ∧ log_with_trace_context level msg fields otelEnabled ctxReadOk c
        = .ok () := by
  have hemit : handlerEmit c = .ok () := by
    cases hs : c.serializeOk <;> cases hw : c.writeOk <;>
      simp [handlerEmit, hs, hw, Except.bind]
  have hcall : loggerCall level c = .ok () := by
    simp [loggerCall, h, hemit]
  refine ⟨hcall, ?_⟩
  cases otelEnabled <;> cases ctxReadOk <;>
    simp [log_with_trace_context, hcall]

/-- C3 witness: the amended theorem at level `'info'`, a failing serializer
and a failing sink. -/
theorem C3_witness :
    log_with_context "info" "Task created" [("task_id", .nat 1)]
        ⟨false, false⟩ = .ok ()
      ∧ log_with_trace_context "info" "Task created" [("task_id", .nat 1)]
        true false ⟨false, false⟩ = .ok () :=
  C3_log_never_raises "info" "Task created" [("task_id", .nat 1)]
    ⟨false, false⟩ true false (by decide)

/-! ## Claim C4: telemetry failures and the HTTP response -/

/-- C4 (counterexample): the claim fails for the logging-app variant — its
telemetry calls are unguarded, so a raising telemetry call escapes
`create_task` to Flask's generic exception handler and the response becomes
500 instead of 201: POST /tasks with a valid body on an empty store. -/
theorem C4_counterexample :
    (LoggingApp.post_tasks true "buy milk" false []).1
      ≠ (LoggingApp.post_tasks true "buy milk" true []).1 := by decide

/-- C4 (amended): in the flask-signoz-app variant — whose telemetry calls are
wrapped in `try: … except: pass` — a failure raised inside a telemetry call
never changes the HTTP response (status, body, and resulting store are
identical to the all-telemetry-succeeds run); in the logging-app variant, by
contrast, a raising telemetry call on the create path turns the response into
a 500. -/
theorem C4_telemetry_failure_isolation (hasTask : Bool) (txt : String)
    (telOk : Bool) (tasks : TaskStore) :
    Signoz.create_task hasTask txt telOk tasks
        = Signoz.create_task hasTask txt true tasks
      ∧ (LoggingApp.post_tasks true txt false tasks).1.status = 500 := by
  constructor
  · cases hasTask <;> cases telOk <;> rfl
  · rfl

/-! ## Claim C6: counter registration is idempotent by name -/

/-- C6: once `counter(name)` has succeeded with handle `h1` and registry `r1`,
requesting a counter under the same name again returns the very same handle
and leaves the registry unchanged; requesting the existing name as a histogram
is a kind-mismatch error; and two `add(1)` calls through the handle accumulate
on one underlying value (final value = old value + 2, not two values of 1).
Modelled from the spec (§4.3): the registry implementation lives in the
OpenTelemetry SDK, outside the repository sources. -/
theorem C6_counter_registration_idempotent (r : Registry) (name h1 : String)
    (r1 : Registry) (hreg : r.counter name = .ok (h1, r1)) :
    r1.counter name = .ok (h1, r1)
      ∧ r1.registerInstr name .histogram = .error "metric kind mismatch"
      ∧ ∀ labels : Labels,
          ((r1.add h1 1 labels).add h1 1 labels).value h1 labels
            = r1.value h1 labels + 2 := by
  have hkey : h1 = name ∧ instrLookup r1.instruments name = some .counter := by
    unfold Registry.counter Registry.registerInstr at hreg
    cases hl : instrLookup r.instruments name with
    | some k' =>
      rw [hl] at hreg
      by_cases hk : k' = MetricKind.counter
      · subst hk
        simp at hreg
        exact ⟨hreg.1.symm, hreg.2 ▸ hl⟩
      · simp [hk] at hreg
    | none =>
      rw [hl] at hreg
      simp only [Except.ok.injEq, Prod.mk.injEq] at hreg
      obtain ⟨hreg1, hreg2⟩ := hreg
      refine ⟨hreg1.symm, ?_⟩
      rw [← hreg2]
      exact instrLookup_append_self r.instruments name .counter hl
  obtain ⟨hh, hlk⟩ := hkey
  subst hh
  refine ⟨?_, ?_, ?_⟩
  · unfold Registry.counter Registry.registerInstr
    rw [hlk]
    simp
  · unfold Registry.registerInstr
    rw [hlk]
    simp
  · intro labels
    show accGet (accAdd (accAdd r1.values (h1, labels) 1) (h1, labels) 1)
        (h1, labels) = _
    rw [accGet_accAdd_eq, accGet_accAdd_eq]
    rfl

/-- C6 witness: the theorem applied to registering `"tasks_total"` in the
empty registry. -/
theorem C6_witness :
    Registry.counter ⟨[("tasks_total", .counter)], []⟩ "tasks_total"
        = .ok ("tasks_total", ⟨[("tasks_total", .counter)], []⟩)
      ∧ Registry.registerInstr ⟨[("tasks_total", .counter)], []⟩ "tasks_total"
          .histogram = .error "metric kind mismatch"
      ∧ ∀ labels : Labels,
          ((Registry.add ⟨[("tasks_total", .counter)], []⟩ "tasks_total" 1
              labels).add "tasks_total" 1 labels).value "tasks_total" labels
            = (Registry.value ⟨[("tasks_total", .counter)], []⟩ "tasks_total"
                labels) + 2 :=
  C6_counter_registration_idempotent ⟨[], []⟩ "tasks_total" "tasks_total"
    ⟨[("tasks_total", .counter)], []⟩ rfl

/-! ## Claim C7: concurrent counter adds are never lost -/

/-- C7: under §5's atomicity (each `add` is one atomic accumulation), an
interleaved execution of `k` concurrent single-`add` operations on the same
label set is some ordering (permutation) of the `k` atomic adds, and every
such ordering yields final value = initial value + sum of all the deltas — no
update is lost.  Modelled from the spec (§4.3, §5): the concurrent-safe
accumulation lives in the OpenTelemetry SDK, outside the repository
sources. -/
theorem C7_concurrent_adds_sum (r : Registry) (h : String) (labels : Labels)
    (deltas sched : List Nat) (hperm : sched.Perm deltas) :
    (runAdds h labels sched r).value h labels
      = r.value h labels + deltas.sum := by
  rw [value_runAdds, hperm.sum_eq]

/-- C7 witness: three concurrent `add`s of 1, 2, 3 executed in the
interleaved order 3, 1, 2 still total 6. -/
theorem C7_witness :
    (runAdds "tasks_total" [] [3, 1, 2]
        ⟨[("tasks_total", .counter)], []⟩).value "tasks_total" []
      = (Registry.value ⟨[("tasks_total", .counter)], []⟩ "tasks_total" [])
        + [1, 2, 3].sum :=
  C7_concurrent_adds_sum ⟨[("tasks_total", .counter)], []⟩ "tasks_total" []
    [1, 2, 3] [3, 1, 2] (by decide)

/-! ## Claim C9: task-id reuse after delete silently overwrites -/

/-- C9: `create_task` always assigns id `len(tasks) + 1`; and from the
reachable store obtained by creating two tasks and deleting task 1, the next
create assigns id 2 — an id already bound to task "b" — and silently
overwrites it (the store afterwards holds one task, "c", under id 2). -/
theorem C9_task_id_reuse_overwrites :
    (∀ (tasks : TaskStore) (txt : String),
        (create_task_store tasks txt).1 = tasks.length + 1)
    ∧ ((create_task_store (delete_task_store
          (create_task_store (create_task_store [] "a").2 "b").2 1) "c").1 = 2
      ∧ storeGet (delete_task_store
          (create_task_store (create_task_store [] "a").2 "b").2 1) 2
          = some ⟨2, "b", false⟩
      ∧ storeGet (create_task_store (delete_task_store
          (create_task_store (create_task_store [] "a").2 "b").2 1) "c").2 2
          = some ⟨2, "c", false⟩
      ∧ (create_task_store (delete_task_store
          (create_task_store (create_task_store [] "a").2 "b").2 1)
          "c").2.length = 1) :=
  ⟨fun _ _ => rfl, by decide⟩

/-! ## Claim C10: PUT with a null JSON body yields 500, no row modified -/

/-- C10: in the SQLite metrics variant, `PUT /tasks/<id>` with
`request.json = None` raises `TypeError` from the membership test before any
SQL statement, so the generic exception handler turns the request into an
HTTP 500 (not 400) and the database is unchanged. -/
theorem C10_put_null_body_returns_500 (tid : Nat) (db : TodoDb) :
    MetricsApp.update_task none tid db
        = .error ⟨"TypeError: argument of type 'NoneType' is not iterable",
            none⟩
      ∧ (MetricsApp.put_tasks none tid db).1.status = 500
      ∧ (MetricsApp.put_tasks none tid db).1.status ≠ 400
      ∧ (MetricsApp.put_tasks none tid db).2 = db :=
  ⟨rfl, rfl, (by norm_num : (500 : Nat) ≠ 400), rfl⟩

end Spec2Proof
